import Mathlib

/-!
Shallow embedding of the LinuxTracepoints Rust crates (`eventheader`,
`eventheader_dynamic`) for verification of the specification claims.

Machine integers are modelled as `Nat` (with explicit `% 2^w` where the Rust
code can overflow).  Kernel interaction (`open`, `ioctl`, `writev`) is
modelled by explicit environment records that supply the kernel's answers,
and by outcome records that list the syscalls the code issues, so that
frame/effect claims ("no I/O happens") are expressible.
-/

namespace LinuxTracepoints

/-- Little-endian byte list of a 16-bit value (`u16::to_ne_bytes` on the
little-endian targets this crate supports). -/
def u16leBytes (n : Nat) : List Nat := [n % 256, n / 256 % 256]

/-- Little-endian byte list of a 32-bit value (`u32::to_ne_bytes` /
`i32` serialization for non-negative values). -/
def u32leBytes (n : Nat) : List Nat :=
  [n % 256, n / 256 % 256, n / 65536 % 256, n / 16777216 % 256]

/-- Big-endian byte list of a 32-bit value (`u32::to_be_bytes`). -/
def u32beBytes (n : Nat) : List Nat :=
  [n / 16777216 % 256, n / 65536 % 256, n / 256 % 256, n % 256]

/-- Big-endian byte list of a 64-bit value (`u64::to_be_bytes`). -/
def u64beBytes (n : Nat) : List Nat :=
  [n / 2 ^ 56 % 256, n / 2 ^ 48 % 256, n / 2 ^ 40 % 256, n / 2 ^ 32 % 256,
   n / 16777216 % 256, n / 65536 % 256, n / 256 % 256, n % 256]

/-- Concatenated serialization of a list of elements
(the bytes copied by `raw_add_data_slice` / iterated `write`). -/
def bytesOfList (elemBytes : α → List Nat) : List α → List Nat
  | [] => []
  | x :: xs => elemBytes x ++ bytesOfList elemBytes xs

theorem bytesOfList_append (f : α → List Nat) (xs ys : List α) :
    bytesOfList f (xs ++ ys) = bytesOfList f xs ++ bytesOfList f ys := by
  induction xs with
  | nil => rfl
  | cons x xs ih => simp [bytesOfList, ih]

/-! ## Kernel registration and emission engine (`eventheader/src/native.rs`) -/

/-- A syscall issued by the emission path.  The write fast path must issue
none of these when the tracepoint is disabled or unregistered. -/
inductive Syscall where
  | writev (fd : Int) (iov : List (List Nat)) : Syscall
deriving DecidableEq

/-- Environment supplying the kernel's answers for one call into the
emission engine: the cached `user_events_data` descriptor observed by
`USER_EVENTS_DATA_FILE.peek()`, the raw result of the `writev` syscall and
the value of `errno` after a failed syscall. -/
structure WriteEnv where
  fd : Int
  writev_result : Int
  failure_errno : Int
deriving DecidableEq

/-- `TracepointState` from `native.rs`: the kernel-updated 32-bit
`enable_status` word and the 32-bit `write_index` word. -/
structure TracepointState where
  enable_status : Nat
  write_index : Nat
deriving DecidableEq

namespace TracepointState

def UNREGISTERED_WRITE_INDEX : Nat := 2 ^ 32 - 1

def BUSY_WRITE_INDEX : Nat := 2 ^ 32 - 2

def HIGHEST_VALID_WRITE_INDEX : Nat := 2 ^ 32 - 3

/-- `TracepointState::new(initial_enable_status)`. -/
def new (initial_enable_status : Nat) : TracepointState :=
  { enable_status := initial_enable_status,
    write_index := UNREGISTERED_WRITE_INDEX }

/-- `TracepointState::enabled()`: a single read of `enable_status`. -/
def enabled (st : TracepointState) : Bool :=
  decide (0 ≠ st.enable_status)

/-- Outcome of `write` / `write_eventheader`: the returned `i32`, the state
of the tracepoint words after the call, the syscalls issued, and the
caller's data-descriptor array after the call. -/
structure WriteOutcome where
  ret : Int
  state : TracepointState
  syscalls : List Syscall
  dataOut : List (List Nat)
deriving DecidableEq

/-- `TracepointState::writev`: fills `data[0]` with the headers bytes,
issues one `writev` of the whole descriptor array to the
`user_events_data` descriptor, then resets `data[0]` to the empty
descriptor.  Returns 0 on success or `errno` on failure. -/
def writevCall (st : TracepointState) (env : WriteEnv) (data : List (List Nat))
    (headers : List Nat) : WriteOutcome :=
  let dataFilled := data.set 0 headers
  { ret := if env.writev_result < 0 then env.failure_errno else 0,
    state := st,
    syscalls := [Syscall.writev env.fd dataFilled],
    dataOut := dataFilled.set 0 [] }

/-- `TracepointState::write`: the fast path loads `enable_status` and
`write_index`; if disabled or not validly registered it returns 0 with no
further work, else it sends `write_index` plus the caller's data. -/
def write (st : TracepointState) (env : WriteEnv) (data : List (List Nat)) :
    WriteOutcome :=
  if st.enable_status = 0 ∨ st.write_index > HIGHEST_VALID_WRITE_INDEX then
    { ret := 0, state := st, syscalls := [], dataOut := data }
  else
    st.writevCall env data (u32leBytes st.write_index)

end TracepointState

/-- `EventHeader` (descriptors.rs): 8 bytes, `repr(C)`, no padding. -/
structure EventHeader where
  flags : Nat
  version : Nat
  id : Nat
  tag : Nat
  opcode : Nat
  level : Nat
deriving DecidableEq

/-- In-memory bytes of an `EventHeader` on a little-endian target. -/
def EventHeader.bytes (h : EventHeader) : List Nat :=
  [h.flags % 256, h.version % 256] ++ u16leBytes h.id ++ u16leBytes h.tag ++
    [h.opcode % 256, h.level % 256]

namespace HeaderFlags

/-- `HeaderFlags::DefaultWithExtension` = Pointer64 | LittleEndian | Extension
on the 64-bit little-endian targets this crate supports. -/
def DefaultWithExtension : Nat := 7

end HeaderFlags

namespace ExtensionKind

def Metadata : Nat := 1

def ActivityId : Nat := 2

def ChainFlag : Nat := 0x8000

end ExtensionKind

/-- Bytes of `EventHeaderExtension::from_parts(size, kind, chain)`:
`size: u16` then `kind: u16` with the chain flag OR'd in when requested. -/
def EventHeaderExtension.from_parts (size kind : Nat) (chain : Bool) :
    List Nat :=
  u16leBytes size ++ u16leBytes (if chain then kind ||| ExtensionKind.ChainFlag else kind)

namespace TracepointState

/-- `TracepointState::write_eventheader`: fast-path check, then assembly of
the headers segment — `write_index`, the 8-byte event header, an optional
activity-id extension block (16 or 32 bytes of ids), and an optional
metadata extension block header — followed by one `writev`. -/
def write_eventheader (st : TracepointState) (env : WriteEnv)
    (event_header : EventHeader) (activity_id related_id : Option (List Nat))
    (meta_len : Nat) (data : List (List Nat)) : WriteOutcome :=
  if st.enable_status = 0 ∨ st.write_index > HIGHEST_VALID_WRITE_INDEX then
    { ret := 0, state := st, syscalls := [], dataOut := data }
  else
    let extension_count :=
      (if activity_id.isSome then 1 else 0) + (if meta_len ≠ 0 then 1 else 0)
    let activityPart : List Nat × Nat :=
      match activity_id, related_id with
      | none, _ => ([], extension_count)
      | some aid, none =>
        (EventHeaderExtension.from_parts 16 ExtensionKind.ActivityId
            (decide (extension_count - 1 > 0)) ++ aid,
         extension_count - 1)
      | some aid, some rid =>
        (EventHeaderExtension.from_parts 32 ExtensionKind.ActivityId
            (decide (extension_count - 1 > 0)) ++ aid ++ rid,
         extension_count - 1)
    let metaPart : List Nat :=
      if meta_len ≠ 0 then
        EventHeaderExtension.from_parts (meta_len % 65536) ExtensionKind.Metadata
          (decide (activityPart.2 - 1 > 0))
      else []
    let headers :=
      u32leBytes st.write_index ++ event_header.bytes ++ activityPart.1 ++ metaPart
    st.writevCall env data headers

/-- Environment for `register` / `unregister`: the control-file slot value
obtained from `USER_EVENTS_DATA_FILE.get()`, the outcome of the
`DIAG_IOCSREG` ioctl (`.ok idx` = kernel-assigned write index, `.error e` =
failed with `errno` e), and the error value computed from the
`DIAG_IOCSUNREG` ioctl (0 on success). -/
structure RegisterEnv where
  user_events_data : Int
  ioctl_reg : Except Int Nat
  unreg_error : Int

/-- Outcome of `register` / `unregister`: the returned `i32`, the final
tracepoint state, and the successive values held by `write_index` during
the call (starting with the value found on entry). -/
structure RegOutcome where
  error : Int
  state : TracepointState
  trace : List Nat
deriving DecidableEq

/-- `TracepointState::register`: swaps `write_index` to `BUSY`, asserting
(panicking, modelled as `none`) unless the old value was `UNREGISTERED`;
then obtains the control file and issues the register ioctl, and swaps
`write_index` from `BUSY` to the kernel-assigned index on success or back
to `UNREGISTERED` on failure. -/
def register (st : TracepointState) (env : RegisterEnv) : Option RegOutcome :=
  let old := st.write_index
  if old ≠ UNREGISTERED_WRITE_INDEX then
    none
  else
    let step : Int × Nat :=
      if env.user_events_data < 0 then
        (-env.user_events_data, UNREGISTERED_WRITE_INDEX)
      else
        match env.ioctl_reg with
        | .error e => (e, UNREGISTERED_WRITE_INDEX)
        | .ok idx => (0, idx)
    some { error := step.1,
           state := { st with write_index := step.2 },
           trace := [old, BUSY_WRITE_INDEX, step.2] }

/-- `TracepointState::unregister`: swaps `write_index` to `BUSY`; if the old
value was already `BUSY` returns `EBUSY` (16) immediately, leaving `BUSY`
in place; otherwise computes the error (`EALREADY` = 116 if already
unregistered, else the unregister-ioctl result) and swaps `write_index`
from `BUSY` to `UNREGISTERED`.  `enable_status` is never written. -/
def unregister (st : TracepointState) (env : RegisterEnv) : RegOutcome :=
  let old := st.write_index
  if old = BUSY_WRITE_INDEX then
    { error := 16,
      state := { st with write_index := BUSY_WRITE_INDEX },
      trace := [old, BUSY_WRITE_INDEX] }
  else
    let error : Int :=
      if old = UNREGISTERED_WRITE_INDEX then 116 else env.unreg_error
    { error := error,
      state := { st with write_index := UNREGISTERED_WRITE_INDEX },
      trace := [old, BUSY_WRITE_INDEX, UNREGISTERED_WRITE_INDEX] }

end TracepointState

/-- No two adjacent values in a `write_index` trace move directly between
`UNREGISTERED` and a valid slot index (`0..=u32::MAX-2`) in either
direction. -/
def NoDirectTransition : List Nat → Prop
  | a :: b :: rest =>
    (¬(a = TracepointState.UNREGISTERED_WRITE_INDEX ∧
        b ≤ TracepointState.HIGHEST_VALID_WRITE_INDEX)) ∧
    (¬(a ≤ TracepointState.HIGHEST_VALID_WRITE_INDEX ∧
        b = TracepointState.UNREGISTERED_WRITE_INDEX)) ∧
    NoDirectTransition (b :: rest)
  | _ => True

/-- C1: on a tracepoint whose `enable_status` is 0 or whose `write_index`
is above `HIGHEST_VALID_WRITE_INDEX` (UNREGISTERED or BUSY), both `write`
and `write_eventheader` return 0, leave `enable_status` and `write_index`
unchanged, issue no syscall, and do not modify the caller's data
buffers. -/
theorem write_disabled_is_noop
    (st : TracepointState) (env : WriteEnv) (data : List (List Nat))
    (hdr : EventHeader) (aid rid : Option (List Nat)) (meta_len : Nat)
    (h : st.enable_status = 0 ∨
      st.write_index > TracepointState.HIGHEST_VALID_WRITE_INDEX) :
    st.write env data = ⟨0, st, [], data⟩ ∧
      st.write_eventheader env hdr aid rid meta_len data = ⟨0, st, [], data⟩ := by
  constructor
  · simp only [TracepointState.write]
    rw [if_pos h]
  · simp only [TracepointState.write_eventheader]
    rw [if_pos h]

theorem write_disabled_is_noop_witness :
    (TracepointState.mk 0 5).write ⟨3, 0, 0⟩ [[], [1, 2]] =
      ⟨0, ⟨0, 5⟩, [], [[], [1, 2]]⟩ :=
  (write_disabled_is_noop ⟨0, 5⟩ ⟨3, 0, 0⟩ [[], [1, 2]] ⟨7, 0, 0, 0, 0, 5⟩
    none none 0 (Or.inl rfl)).1

/-- C2 (amended): `register` swaps `write_index` UNREGISTERED→BUSY and then
BUSY→(kernel-assigned index on success | UNREGISTERED on failure), and
panics when the first swap finds any value other than UNREGISTERED;
`unregister` swaps (any)→BUSY and then — except when the first swap found
BUSY, in which case it returns EBUSY leaving BUSY in place — swaps
BUSY→UNREGISTERED; and no step of either trace moves directly between
UNREGISTERED and a valid slot index. -/
theorem tracepoint_write_index_protocol
    (st : TracepointState) (env : TracepointState.RegisterEnv) :
    (st.write_index ≠ TracepointState.UNREGISTERED_WRITE_INDEX →
      st.register env = none) ∧
    (st.write_index = TracepointState.UNREGISTERED_WRITE_INDEX →
      ∃ out, st.register env = some out ∧
        out.trace = [TracepointState.UNREGISTERED_WRITE_INDEX,
          TracepointState.BUSY_WRITE_INDEX, out.state.write_index] ∧
        (∀ idx, 0 ≤ env.user_events_data → env.ioctl_reg = .ok idx →
          out.state.write_index = idx ∧ out.error = 0) ∧
        ((env.user_events_data < 0 ∨ ∃ e, env.ioctl_reg = .error e) →
          out.state.write_index = TracepointState.UNREGISTERED_WRITE_INDEX)) ∧
    (st.write_index = TracepointState.BUSY_WRITE_INDEX →
      st.unregister env =
        ⟨16, { st with write_index := TracepointState.BUSY_WRITE_INDEX },
          [TracepointState.BUSY_WRITE_INDEX, TracepointState.BUSY_WRITE_INDEX]⟩) ∧
    (st.write_index ≠ TracepointState.BUSY_WRITE_INDEX →
      (st.unregister env).state.write_index =
          TracepointState.UNREGISTERED_WRITE_INDEX ∧
        (st.unregister env).trace = [st.write_index,
          TracepointState.BUSY_WRITE_INDEX,
          TracepointState.UNREGISTERED_WRITE_INDEX]) ∧
    (∀ out, st.register env = some out → NoDirectTransition out.trace) ∧
    NoDirectTransition (st.unregister env).trace := by
  refine ⟨?_, ?_, ?_, ?_, ?_, ?_⟩
  · intro h
    simp [TracepointState.register, h]
  · intro h
    rcases lt_or_le env.user_events_data 0 with hfd | hfd
    · refine ⟨⟨-env.user_events_data,
        { st with write_index := TracepointState.UNREGISTERED_WRITE_INDEX },
        [TracepointState.UNREGISTERED_WRITE_INDEX, TracepointState.BUSY_WRITE_INDEX,
          TracepointState.UNREGISTERED_WRITE_INDEX]⟩, ?_, rfl, ?_, ?_⟩
      · simp [TracepointState.register, h, hfd]
      · intro idx hge _
        exact absurd (lt_of_le_of_lt hge hfd) (lt_irrefl _)
      · intro _
        rfl
    · cases hreg : env.ioctl_reg with
      | error e =>
        refine ⟨⟨e,
          { st with write_index := TracepointState.UNREGISTERED_WRITE_INDEX },
          [TracepointState.UNREGISTERED_WRITE_INDEX, TracepointState.BUSY_WRITE_INDEX,
            TracepointState.UNREGISTERED_WRITE_INDEX]⟩, ?_, rfl, ?_, ?_⟩
        · simp [TracepointState.register, h, not_lt.mpr hfd, hreg]
        · intro idx _ hok
          cases hok
        · intro _
          rfl
      | ok idx =>
        refine ⟨⟨0, { st with write_index := idx },
          [TracepointState.UNREGISTERED_WRITE_INDEX, TracepointState.BUSY_WRITE_INDEX,
            idx]⟩, ?_, rfl, ?_, ?_⟩
        · simp [TracepointState.register, h, not_lt.mpr hfd, hreg]
        · intro idx2 _ hok
          cases hok
          exact ⟨rfl, rfl⟩
        · rintro (hlt | ⟨e, herr⟩)
          · exact absurd (lt_of_le_of_lt hfd hlt) (lt_irrefl _)
          · cases herr
  · intro h
    simp [TracepointState.unregister, h]
  · intro h
    simp [TracepointState.unregister, h]
  · intro out hreg
    simp only [TracepointState.register] at hreg
    by_cases h : st.write_index ≠ TracepointState.UNREGISTERED_WRITE_INDEX
    · simp [h] at hreg
    · simp only [not_not] at h
      simp [h] at hreg
      rw [← hreg]
      refine ⟨?_, ?_, ?_, ?_, trivial⟩ <;>
        simp [TracepointState.UNREGISTERED_WRITE_INDEX,
          TracepointState.BUSY_WRITE_INDEX, TracepointState.HIGHEST_VALID_WRITE_INDEX]
  · simp only [TracepointState.unregister]
    by_cases h : st.write_index = TracepointState.BUSY_WRITE_INDEX
    · simp only [h, if_pos rfl]
      refine ⟨?_, ?_, trivial⟩ <;>
        simp [TracepointState.UNREGISTERED_WRITE_INDEX,
          TracepointState.BUSY_WRITE_INDEX, TracepointState.HIGHEST_VALID_WRITE_INDEX]
    · rw [if_neg h]
      refine ⟨?_, ?_, ?_, ?_, trivial⟩ <;>
        simp [TracepointState.UNREGISTERED_WRITE_INDEX,
          TracepointState.BUSY_WRITE_INDEX, TracepointState.HIGHEST_VALID_WRITE_INDEX]

theorem tracepoint_write_index_protocol_witness :
    ((TracepointState.mk 7 3).unregister ⟨0, .ok 0, 5⟩).state.write_index =
      TracepointState.UNREGISTERED_WRITE_INDEX :=
  ((tracepoint_write_index_protocol ⟨7, 3⟩ ⟨0, .ok 0, 5⟩).2.2.2.1
    (by decide)).1

/-- C2 counterexample to the claim as stated: `unregister` on a tracepoint
whose `write_index` is BUSY returns without performing the BUSY→UNREGISTERED
swap, leaving `write_index` = BUSY ≠ UNREGISTERED. -/
theorem tracepoint_unregister_busy_keeps_busy :
    ((TracepointState.mk 0 TracepointState.BUSY_WRITE_INDEX).unregister
        ⟨0, .ok 0, 0⟩).state.write_index = TracepointState.BUSY_WRITE_INDEX ∧
      TracepointState.BUSY_WRITE_INDEX ≠
        TracepointState.UNREGISTERED_WRITE_INDEX := by
  constructor
  · simp [TracepointState.unregister]
  · decide

/-! ## `UserEventsDataFile` control-file slot (`native.rs`) -/

namespace UserEventsDataFile

/-- Initial slot value: `-EAGAIN`. -/
def EAGAIN_ERROR : Int := -11

/-- Outcome of the publication loop of `UserEventsDataFile::update`: the
returned value, `some v` when the compare-and-swap installed the new value
over slot value `v` (`none` when the thread deferred to another's value),
whether the redundant newly-opened descriptor was closed, and how many
compare-and-swap attempts were made. -/
structure UpdateOutcome where
  ret : Int
  overwritten : Option Int
  closed_new : Bool
  attempts : Nat
deriving DecidableEq

/-- The compare-and-swap retry loop at the end of
`UserEventsDataFile::update`.  `new_voe` is the newly computed
file-or-error value, `old` the value the thread expects to find in the
slot, and `interference` the successive slot contents observed at each
failing compare-exchange (other threads' updates); once the list is
exhausted the slot is no longer disturbed and the compare-exchange
succeeds. -/
def updateLoop (new_voe : Int) : Int → List Int → UpdateOutcome
  | old, [] =>
    { ret := new_voe, overwritten := some old, closed_new := false, attempts := 1 }
  | old, current :: rest =>
    if current = old then
      { ret := new_voe, overwritten := some current, closed_new := false,
        attempts := 1 }
    else if 0 ≤ current ∨ new_voe < 0 then
      { ret := current, overwritten := none, closed_new := decide (0 ≤ new_voe),
        attempts := 1 }
    else
      let r := updateLoop new_voe current rest
      { r with attempts := r.attempts + 1 }

/-- `UserEventsDataFile::update`: runs the publication loop starting from
the expected initial slot value `-EAGAIN`. -/
def update (new_voe : Int) (interference : List Int) : UpdateOutcome :=
  updateLoop new_voe EAGAIN_ERROR interference

/-- `UserEventsDataFile::close`: swaps the slot back to `-EAGAIN` and
closes the descriptor it held, when non-negative. -/
def close (slot : Int) : Int × Bool :=
  (EAGAIN_ERROR, decide (0 ≤ slot))

end UserEventsDataFile

/-- C6: in the shared control-file slot protocol, a non-negative (valid
handle) value always wins over a negative (error) value: an update that
finds a non-negative value in the slot returns it, installs nothing, and
closes its redundant handle; an installing compare-and-swap only ever
overwrites a negative value; when the slot keeps holding errors and the
update produced a valid handle, the retry loop installs the handle; and
the loop converges — it makes at most one compare-and-swap attempt more
than the number of interfering updates it observes. -/
theorem update_valid_handle_wins :
    (∀ new_voe current rest, 0 ≤ current →
      UserEventsDataFile.update new_voe (current :: rest) =
        { ret := current, overwritten := none,
          closed_new := decide (0 ≤ new_voe), attempts := 1 }) ∧
    (∀ new_voe old interference v, old < 0 →
      (UserEventsDataFile.updateLoop new_voe old interference).overwritten = some v →
      v < 0) ∧
    (∀ new_voe old interference, 0 ≤ new_voe → old < 0 →
      (∀ c ∈ interference, c < 0) →
      ((UserEventsDataFile.updateLoop new_voe old interference).overwritten.isSome ∧
        (UserEventsDataFile.updateLoop new_voe old interference).ret = new_voe)) ∧
    (∀ new_voe old interference,
      (UserEventsDataFile.updateLoop new_voe old interference).attempts ≤
        interference.length + 1) := by
  refine ⟨?_, ?_, ?_, ?_⟩
  · intro new_voe current rest hc
    have hne : current ≠ UserEventsDataFile.EAGAIN_ERROR := by
      simp only [UserEventsDataFile.EAGAIN_ERROR]
      omega
    simp [UserEventsDataFile.update, UserEventsDataFile.updateLoop, hne, hc]
  · intro new_voe old interference v hold
    induction interference generalizing old with
    | nil =>
      intro h
      simp only [UserEventsDataFile.updateLoop, Option.some.injEq] at h
      omega
    | cons c rest ih =>
      intro h
      simp only [UserEventsDataFile.updateLoop] at h
      by_cases hco : c = old
      · simp only [if_pos hco, Option.some.injEq] at h
        omega
      · rw [if_neg hco] at h
        by_cases hpref : 0 ≤ c ∨ new_voe < 0
        · simp [if_pos hpref] at h
        · rw [if_neg hpref] at h
          push_neg at hpref
          exact ih c hpref.1 h
  · intro new_voe old interference hnew hold hall
    induction interference generalizing old with
    | nil =>
      simp [UserEventsDataFile.updateLoop]
    | cons c rest ih =>
      have hc : c < 0 := hall c (List.mem_cons_self c rest)
      simp only [UserEventsDataFile.updateLoop]
      by_cases hco : c = old
      · simp [if_pos hco]
      · rw [if_neg hco]
        have hpref : ¬(0 ≤ c ∨ new_voe < 0) := by omega
        rw [if_neg hpref]
        exact ih c hc (fun x hx => hall x (List.mem_cons_of_mem c hx))
  · intro new_voe old interference
    induction interference generalizing old with
    | nil =>
      simp [UserEventsDataFile.updateLoop]
    | cons c rest ih =>
      simp only [UserEventsDataFile.updateLoop]
      by_cases hco : c = old
      · simp [if_pos hco]
      · rw [if_neg hco]
        by_cases hpref : 0 ≤ c ∨ new_voe < 0
        · simp [if_pos hpref]
        · rw [if_neg hpref]
          have := ih c
          simp only [List.length_cons]
          omega

theorem update_valid_handle_wins_witness :
    UserEventsDataFile.update 7 [3, -5] =
      { ret := 3, overwritten := none, closed_new := true, attempts := 1 } := by
  have h := update_valid_handle_wins.1 7 3 [-5] (by norm_num)
  simpa using h

/-! ## GUID utility (`eventheader/src/guid.rs`) -/

/-- `Guid`: 16 bytes in big-endian (RFC 4122) in-memory order. -/
structure Guid where
  b0 : Nat
  b1 : Nat
  b2 : Nat
  b3 : Nat
  b4 : Nat
  b5 : Nat
  b6 : Nat
  b7 : Nat
  b8 : Nat
  b9 : Nat
  b10 : Nat
  b11 : Nat
  b12 : Nat
  b13 : Nat
  b14 : Nat
  b15 : Nat
deriving DecidableEq

namespace Guid

/-- `Guid::zero()`. -/
def zero : Guid := ⟨0, 0, 0, 0, 0, 0, 0, 0, 0, 0, 0, 0, 0, 0, 0, 0⟩

/-- `Guid::from_bytes_be`: the `[u8; 16]` argument is modelled as a list;
lists of the wrong length have no counterpart in the Rust type. -/
def from_bytes_be : List Nat → Option Guid
  | [a0, a1, a2, a3, a4, a5, a6, a7, a8, a9, a10, a11, a12, a13, a14, a15] =>
    some ⟨a0, a1, a2, a3, a4, a5, a6, a7, a8, a9, a10, a11, a12, a13, a14, a15⟩
  | _ => none

/-- `Guid::from_bytes_le`. -/
def from_bytes_le : List Nat → Option Guid
  | [a0, a1, a2, a3, a4, a5, a6, a7, a8, a9, a10, a11, a12, a13, a14, a15] =>
    some ⟨a3, a2, a1, a0, a5, a4, a7, a6, a8, a9, a10, a11, a12, a13, a14, a15⟩
  | _ => none

/-- `Guid::to_bytes_be`. -/
def to_bytes_be (g : Guid) : List Nat :=
  [g.b0, g.b1, g.b2, g.b3, g.b4, g.b5, g.b6, g.b7,
   g.b8, g.b9, g.b10, g.b11, g.b12, g.b13, g.b14, g.b15]

/-- `Guid::to_bytes_le`. -/
def to_bytes_le (g : Guid) : List Nat :=
  [g.b3, g.b2, g.b1, g.b0, g.b5, g.b4, g.b7, g.b6,
   g.b8, g.b9, g.b10, g.b11, g.b12, g.b13, g.b14, g.b15]

/-- `Guid::from_u128`: big-endian bytes of the 128-bit value. -/
def from_u128 (v : Nat) : Guid :=
  ⟨v / 2 ^ 120 % 256, v / 2 ^ 112 % 256, v / 2 ^ 104 % 256, v / 2 ^ 96 % 256,
   v / 2 ^ 88 % 256, v / 2 ^ 80 % 256, v / 2 ^ 72 % 256, v / 2 ^ 64 % 256,
   v / 2 ^ 56 % 256, v / 2 ^ 48 % 256, v / 2 ^ 40 % 256, v / 2 ^ 32 % 256,
   v / 2 ^ 24 % 256, v / 2 ^ 16 % 256, v / 2 ^ 8 % 256, v % 256⟩

/-- The `HEX_DIGITS` table of `to_utf8_bytes`. -/
def hexDigit (n : Nat) : Nat :=
  [48, 49, 50, 51, 52, 53, 54, 55, 56, 57, 97, 98, 99, 100, 101, 102].getD n 0

/-- `Guid::to_utf8_bytes`: 36 ASCII chars,
"xxxxxxxx-xxxx-xxxx-xxxx-xxxxxxxxxxxx". -/
def to_utf8_bytes (g : Guid) : List Nat :=
  [hexDigit (g.b0 >>> 4), hexDigit (g.b0 &&& 0xf),
   hexDigit (g.b1 >>> 4), hexDigit (g.b1 &&& 0xf),
   hexDigit (g.b2 >>> 4), hexDigit (g.b2 &&& 0xf),
   hexDigit (g.b3 >>> 4), hexDigit (g.b3 &&& 0xf),
   45,
   hexDigit (g.b4 >>> 4), hexDigit (g.b4 &&& 0xf),
   hexDigit (g.b5 >>> 4), hexDigit (g.b5 &&& 0xf),
   45,
   hexDigit (g.b6 >>> 4), hexDigit (g.b6 &&& 0xf),
   hexDigit (g.b7 >>> 4), hexDigit (g.b7 &&& 0xf),
   45,
   hexDigit (g.b8 >>> 4), hexDigit (g.b8 &&& 0xf),
   hexDigit (g.b9 >>> 4), hexDigit (g.b9 &&& 0xf),
   45,
   hexDigit (g.b10 >>> 4), hexDigit (g.b10 &&& 0xf),
   hexDigit (g.b11 >>> 4), hexDigit (g.b11 &&& 0xf),
   hexDigit (g.b12 >>> 4), hexDigit (g.b12 &&& 0xf),
   hexDigit (g.b13 >>> 4), hexDigit (g.b13 &&& 0xf),
   hexDigit (g.b14 >>> 4), hexDigit (g.b14 &&& 0xf),
   hexDigit (g.b15 >>> 4), hexDigit (g.b15 &&& 0xf)]

end Guid

/-- `GuidParseState` from `guid.rs`. -/
structure GuidParseState where
  input : List Nat
  pos : Nat
  dash : Nat
  highbits : Nat

namespace GuidParseState

/-- `GuidParseState::hex_to_u4`: digit value of an ASCII hex char, or 256
for a non-hex char (u8 wrapping subtraction modelled with `% 256`). -/
def hex_to_u4 (ch : Nat) : Nat :=
  let index := (ch + 208) % 256
  if index < 10 then
    index
  else
    let index2 := ((ch ||| 32) + 159) % 256
    if index2 < 6 then index2 + 10 else 256

/-- `GuidParseState::next`: consume two hex chars, produce one byte,
accumulate error bits into `highbits`. -/
def next (st : GuidParseState) : Nat × GuidParseState :=
  let val1 := hex_to_u4 (st.input.getD st.pos 0)
  let val2 := hex_to_u4 (st.input.getD (st.pos + 1) 0)
  let val := (val1 <<< 4) ||| val2
  (val % 256,
   { st with pos := st.pos + 2, highbits := st.highbits ||| val })

/-- `GuidParseState::next_dash`: skip a dash (when `dash = 1`) then `next`. -/
def next_dash (st : GuidParseState) : Nat × GuidParseState :=
  next { st with pos := st.pos + st.dash }

end GuidParseState

namespace Guid

/-- Runs the 16 `next`/`next_dash` steps of `try_parse_ascii`; `true`
entries are the positions using `next_dash`. -/
def runParse : GuidParseState → List Bool → List Nat × GuidParseState
  | st, [] => ([], st)
  | st, d :: ds =>
    let step := if d then st.next_dash else st.next
    let rest := runParse step.2 ds
    (step.1 :: rest.1, rest.2)

/-- The `next`/`next_dash` pattern of the 16 byte reads in
`try_parse_ascii`. -/
def parsePattern : List Bool :=
  [false, false, false, false, true, false, true, false,
   true, false, true, false, false, false, false, false]

/-- `Guid::try_parse_ascii`: accepts 32 hex chars, optionally with the four
standard dashes, optionally within braces. -/
def try_parse_ascii (value : List Nat) : Option Guid :=
  if value.length < 32 then
    none
  else
    let input :=
      if value.getD 0 0 ≠ 123 ∨ value.getD (value.length - 1) 0 ≠ 125 then
        value
      else
        (value.drop 1).take (value.length - 2)
    let dashed :=
      input.length = 36 ∧ input.getD 8 0 = 45 ∧ input.getD 13 0 = 45 ∧
        input.getD 18 0 = 45 ∧ input.getD 23 0 = 45
    if dashed then
      let r := runParse ⟨input, 0, 1, 0⟩ parsePattern
      if r.2.highbits &&& 0xFFFFFF00 ≠ 0 then none else from_bytes_be r.1
    else if input.length ≠ 32 then
      none
    else
      let r := runParse ⟨input, 0, 0, 0⟩ parsePattern
      if r.2.highbits &&& 0xFFFFFF00 ≠ 0 then none else from_bytes_be r.1

end Guid

/-! ### SHA-1 (`Sha1NonSecret` in `guid.rs`) -/

/-- `u32::rotate_left`. -/
def rotl32 (x k : Nat) : Nat := ((x <<< k) ||| (x >>> (32 - k))) % 2 ^ 32

/-- Round function `f` of the four SHA-1 round groups (`!b` on `u32` is
XOR with `0xFFFFFFFF`). -/
def sha1F (i b c d : Nat) : Nat :=
  if i < 20 then (b &&& c) ||| ((b ^^^ 0xFFFFFFFF) &&& d)
  else if i < 40 then b ^^^ c ^^^ d
  else if i < 60 then (b &&& c) ||| (b &&& d) ||| (c &&& d)
  else b ^^^ c ^^^ d

/-- Round constant `K` of the four SHA-1 round groups. -/
def sha1K (i : Nat) : Nat :=
  if i < 20 then 0x5A827999
  else if i < 40 then 0x6ED9EBA1
  else if i < 60 then 0x8F1BBCDC
  else 0xCA62C1D6

/-- `u32::from_be_bytes` of four consecutive chunk bytes. -/
def beWordAt (l : List Nat) (i : Nat) : Nat :=
  l.getD i 0 * 2 ^ 24 + l.getD (i + 1) 0 * 2 ^ 16 + l.getD (i + 2) 0 * 2 ^ 8 +
    l.getD (i + 3) 0

/-- One step of the `w` message-schedule extension loop. -/
def sha1ExtendStep (w : List Nat) : List Nat :=
  w ++ [rotl32 ((w.getD (w.length - 3) 0) ^^^ (w.getD (w.length - 8) 0) ^^^
    (w.getD (w.length - 14) 0) ^^^ (w.getD (w.length - 16) 0)) 1]

/-- Iterate a function `n` times. -/
def iterateN (f : α → α) : Nat → α → α
  | 0, a => a
  | n + 1, a => iterateN f n (f a)

/-- `Sha1NonSecret`: 64-byte chunk buffer, chunk count, position within the
current chunk, and the five 32-bit result words. -/
structure Sha1NonSecret where
  chunk : List Nat
  chunk_count : Nat
  chunk_pos : Nat
  results : List Nat

namespace Sha1NonSecret

/-- `Sha1NonSecret::new()`. -/
def new : Sha1NonSecret :=
  { chunk := List.replicate 64 0,
    chunk_count := 0,
    chunk_pos := 0,
    results := [0x67452301, 0xEFCDAB89, 0x98BADCFE, 0x10325476, 0xC3D2E1F0] }

/-- `Sha1NonSecret::drain`: process the full 64-byte chunk. -/
def drain (st : Sha1NonSecret) : Sha1NonSecret :=
  let w16 := (List.range 16).map (fun i => beWordAt st.chunk (4 * i))
  let w := iterateN sha1ExtendStep 64 w16
  let r0 := st.results.getD 0 0
  let r1 := st.results.getD 1 0
  let r2 := st.results.getD 2 0
  let r3 := st.results.getD 3 0
  let r4 := st.results.getD 4 0
  let rounds := (List.range 80).foldl
    (fun s i =>
      let temp := (rotl32 s.1 5 + sha1F i s.2.1 s.2.2.1 s.2.2.2.1 + s.2.2.2.2 +
        sha1K i + w.getD i 0) % 2 ^ 32
      (temp, s.1, rotl32 s.2.1 30, s.2.2.1, s.2.2.2.1))
    (r0, r1, r2, r3, r4)
  { st with
    results := [(r0 + rounds.1) % 2 ^ 32, (r1 + rounds.2.1) % 2 ^ 32,
      (r2 + rounds.2.2.1) % 2 ^ 32, (r3 + rounds.2.2.2.1) % 2 ^ 32,
      (r4 + rounds.2.2.2.2) % 2 ^ 32],
    chunk_count := st.chunk_count + 1 }

/-- `Sha1NonSecret::write_u8`. -/
def write_u8 (st : Sha1NonSecret) (val : Nat) : Sha1NonSecret :=
  let st1 := { st with chunk := st.chunk.set st.chunk_pos (val % 256),
                       chunk_pos := (st.chunk_pos + 1) % 64 }
  if st1.chunk_pos = 0 then st1.drain else st1

/-- `Sha1NonSecret::write`. -/
def write (st : Sha1NonSecret) (bytes : List Nat) : Sha1NonSecret :=
  bytes.foldl write_u8 st

/-- `Sha1NonSecret::finish`: append the end bit, zero-pad to byte 56 of the
chunk (the closed form of the `while chunk_pos != 56` loop), append the
big-endian total bit count, and serialize the result words big-endian. -/
def finish (st : Sha1NonSecret) : List Nat :=
  let total_bit_count := st.chunk_count * 512 + st.chunk_pos * 8
  let st1 := st.write_u8 0x80
  let st2 := st1.write (List.replicate ((120 - st1.chunk_pos) % 64) 0)
  let st3 := st2.write (u64beBytes total_bit_count)
  bytesOfList u32beBytes st3.results

end Sha1NonSecret

/-- Single-use SHA-1 of a byte list. -/
def sha1 (bytes : List Nat) : List Nat :=
  (Sha1NonSecret.new.write bytes).finish

/-- ASCII uppercasing, the restriction of `char::to_uppercase` to the ASCII
range. -/
def upperAscii (c : Nat) : Nat :=
  if 97 ≤ c ∧ c ≤ 122 then c - 32 else c

namespace Guid

/-- The fixed 16-byte namespace seed hashed by `Guid::from_name`. -/
def nameSeed : List Nat :=
  [0x48, 0x2C, 0x2D, 0xB2, 0xC3, 0x90, 0x47, 0xC8,
   0x87, 0xF8, 0x1A, 0x15, 0xBF, 0xC1, 0x30, 0xFB]

/-- `Guid::from_name` for an ASCII provider name (each char yields one
UTF-16 code unit, whose big-endian bytes are `[0, uppercased char]`):
SHA-1 of seed + uppercased UTF-16BE name, byte 7 patched to
`(b7 & 0x0F) | 0x50`, first 16 bytes taken little-endian. -/
def from_name (s : List Nat) : Guid :=
  let hashed := sha1 (nameSeed ++ bytesOfList (fun c => [0, upperAscii c]) s)
  let v := hashed.set 7 ((hashed.getD 7 0 &&& 0x0F) ||| 0x50)
  (from_bytes_le (v.take 16)).getD zero

end Guid

/-- The sixteen byte fields all fit in a byte, as the Rust `[u8; 16]` type
guarantees. -/
abbrev Guid.wf (g : Guid) : Prop :=
  g.b0 < 256 ∧ g.b1 < 256 ∧ g.b2 < 256 ∧ g.b3 < 256 ∧
  g.b4 < 256 ∧ g.b5 < 256 ∧ g.b6 < 256 ∧ g.b7 < 256 ∧
  g.b8 < 256 ∧ g.b9 < 256 ∧ g.b10 < 256 ∧ g.b11 < 256 ∧
  g.b12 < 256 ∧ g.b13 < 256 ∧ g.b14 < 256 ∧ g.b15 < 256

theorem hexDigit_ne (n : Nat) :
    Guid.hexDigit n ≠ 123 ∧ Guid.hexDigit n ≠ 45 := by
  rcases Nat.lt_or_ge n 16 with h | h
  · unfold Guid.hexDigit
    interval_cases n <;> exact ⟨by decide, by decide⟩
  · unfold Guid.hexDigit
    rw [List.getD_eq_default _ _ (by simpa using h)]
    exact ⟨by decide, by decide⟩

theorem hexDigit_bne45 (n : Nat) : (Guid.hexDigit n != 45) = true :=
  bne_iff_ne.mpr (hexDigit_ne n).2

theorem hexToU4_hexDigit (n : Nat) (h : n < 16) :
    GuidParseState.hex_to_u4 (Guid.hexDigit n) = n := by
  interval_cases n <;> decide

set_option maxRecDepth 100000 in
theorem hex_pair_eq (b : Nat) (hb : b < 256) :
    (GuidParseState.hex_to_u4 (Guid.hexDigit (b >>> 4)) <<< 4) |||
      GuidParseState.hex_to_u4 (Guid.hexDigit (b &&& 15)) = b := by
  have h1 : b >>> 4 < 16 := by
    rw [Nat.shiftRight_eq_div_pow]
    omega
  have h2 : b &&& 15 < 16 := lt_of_le_of_lt Nat.and_le_right (by norm_num)
  rw [hexToU4_hexDigit _ h1, hexToU4_hexDigit _ h2]
  have hc : ∀ x : Fin 16, ∀ y : Fin 16,
      (x.val <<< 4) ||| y.val = 16 * x.val + y.val := by decide
  have hm : ∀ a : Fin 256, a.val &&& 15 = a.val % 16 := by decide
  have h3 : ((b >>> 4) <<< 4) ||| (b &&& 15) = 16 * (b >>> 4) + (b &&& 15) :=
    hc ⟨b >>> 4, h1⟩ ⟨b &&& 15, h2⟩
  have h4 : b &&& 15 = b % 16 := hm ⟨b, hb⟩
  rw [h3, h4, Nat.shiftRight_eq_div_pow]
  omega

theorem lor_lt_256 {x y : Nat} (hx : x < 256) (hy : y < 256) :
    x ||| y < 256 :=
  Nat.or_lt_two_pow (n := 8) hx hy

set_option maxRecDepth 100000 in
theorem byte_and_high_mask {x : Nat} (h : x < 256) : x &&& 4294967040 = 0 := by
  have hm : ∀ a : Fin 256, a.val &&& 4294967040 = 0 := by decide
  exact hm ⟨x, h⟩

theorem try_parse_utf8_dashed (g : Guid) (h : g.wf) :
    Guid.try_parse_ascii g.to_utf8_bytes = some g := by
  obtain ⟨h0, h1, h2, h3, h4, h5, h6, h7, h8, h9, h10, h11, h12, h13, h14, h15⟩ := h
  have n0 : Guid.hexDigit (g.b0 >>> 4) ≠ 123 := (hexDigit_ne _).1
  simp [Guid.try_parse_ascii, Guid.to_utf8_bytes,
    Guid.runParse, Guid.parsePattern, GuidParseState.next, GuidParseState.next_dash,
    Guid.from_bytes_be, n0]
  rw [hex_pair_eq g.b0 h0, hex_pair_eq g.b1 h1, hex_pair_eq g.b2 h2,
    hex_pair_eq g.b3 h3, hex_pair_eq g.b4 h4, hex_pair_eq g.b5 h5,
    hex_pair_eq g.b6 h6, hex_pair_eq g.b7 h7, hex_pair_eq g.b8 h8,
    hex_pair_eq g.b9 h9, hex_pair_eq g.b10 h10, hex_pair_eq g.b11 h11,
    hex_pair_eq g.b12 h12, hex_pair_eq g.b13 h13, hex_pair_eq g.b14 h14,
    hex_pair_eq g.b15 h15]
  constructor
  · exact byte_and_high_mask (lor_lt_256 (lor_lt_256 (lor_lt_256 (lor_lt_256
      (lor_lt_256 (lor_lt_256 (lor_lt_256 (lor_lt_256 (lor_lt_256 (lor_lt_256
      (lor_lt_256 (lor_lt_256 (lor_lt_256 (lor_lt_256 (lor_lt_256 h0 h1) h2)
      h3) h4) h5) h6) h7) h8) h9) h10) h11) h12) h13) h14) h15)
  · simp [Nat.mod_eq_of_lt, h0, h1, h2, h3, h4, h5, h6, h7, h8, h9, h10,
      h11, h12, h13, h14, h15]

theorem try_parse_utf8_nodash (g : Guid) (h : g.wf) :
    Guid.try_parse_ascii (g.to_utf8_bytes.filter (fun c => c != 45)) = some g := by
  obtain ⟨h0, h1, h2, h3, h4, h5, h6, h7, h8, h9, h10, h11, h12, h13, h14, h15⟩ := h
  have n0 : Guid.hexDigit (g.b0 >>> 4) ≠ 123 := (hexDigit_ne _).1
  simp [Guid.try_parse_ascii, Guid.to_utf8_bytes, List.filter, hexDigit_bne45,
    Guid.runParse, Guid.parsePattern, GuidParseState.next, GuidParseState.next_dash,
    Guid.from_bytes_be, n0]
  rw [hex_pair_eq g.b0 h0, hex_pair_eq g.b1 h1, hex_pair_eq g.b2 h2,
    hex_pair_eq g.b3 h3, hex_pair_eq g.b4 h4, hex_pair_eq g.b5 h5,
    hex_pair_eq g.b6 h6, hex_pair_eq g.b7 h7, hex_pair_eq g.b8 h8,
    hex_pair_eq g.b9 h9, hex_pair_eq g.b10 h10, hex_pair_eq g.b11 h11,
    hex_pair_eq g.b12 h12, hex_pair_eq g.b13 h13, hex_pair_eq g.b14 h14,
    hex_pair_eq g.b15 h15]
  constructor
  · exact byte_and_high_mask (lor_lt_256 (lor_lt_256 (lor_lt_256 (lor_lt_256
      (lor_lt_256 (lor_lt_256 (lor_lt_256 (lor_lt_256 (lor_lt_256 (lor_lt_256
      (lor_lt_256 (lor_lt_256 (lor_lt_256 (lor_lt_256 (lor_lt_256 h0 h1) h2)
      h3) h4) h5) h6) h7) h8) h9) h10) h11) h12) h13) h14) h15)
  · simp [Nat.mod_eq_of_lt, h0, h1, h2, h3, h4, h5, h6, h7, h8, h9, h10,
      h11, h12, h13, h14, h15]

theorem try_parse_utf8_braced (g : Guid) (h : g.wf) :
    Guid.try_parse_ascii (123 :: g.to_utf8_bytes ++ [125]) = some g := by
  obtain ⟨h0, h1, h2, h3, h4, h5, h6, h7, h8, h9, h10, h11, h12, h13, h14, h15⟩ := h
  simp [Guid.try_parse_ascii, Guid.to_utf8_bytes,
    Guid.runParse, Guid.parsePattern, GuidParseState.next, GuidParseState.next_dash,
    Guid.from_bytes_be]
  rw [hex_pair_eq g.b0 h0, hex_pair_eq g.b1 h1, hex_pair_eq g.b2 h2,
    hex_pair_eq g.b3 h3, hex_pair_eq g.b4 h4, hex_pair_eq g.b5 h5,
    hex_pair_eq g.b6 h6, hex_pair_eq g.b7 h7, hex_pair_eq g.b8 h8,
    hex_pair_eq g.b9 h9, hex_pair_eq g.b10 h10, hex_pair_eq g.b11 h11,
    hex_pair_eq g.b12 h12, hex_pair_eq g.b13 h13, hex_pair_eq g.b14 h14,
    hex_pair_eq g.b15 h15]
  constructor
  · exact byte_and_high_mask (lor_lt_256 (lor_lt_256 (lor_lt_256 (lor_lt_256
      (lor_lt_256 (lor_lt_256 (lor_lt_256 (lor_lt_256 (lor_lt_256 (lor_lt_256
      (lor_lt_256 (lor_lt_256 (lor_lt_256 (lor_lt_256 (lor_lt_256 h0 h1) h2)
      h3) h4) h5) h6) h7) h8) h9) h10) h11) h12) h13) h14) h15)
  · simp [Nat.mod_eq_of_lt, h0, h1, h2, h3, h4, h5, h6, h7, h8, h9, h10,
      h11, h12, h13, h14, h15]

theorem try_parse_utf8_braced_nodash (g : Guid) (h : g.wf) :
    Guid.try_parse_ascii (123 :: g.to_utf8_bytes.filter (fun c => c != 45) ++ [125]) =
      some g := by
  obtain ⟨h0, h1, h2, h3, h4, h5, h6, h7, h8, h9, h10, h11, h12, h13, h14, h15⟩ := h
  simp [Guid.try_parse_ascii, Guid.to_utf8_bytes, List.filter, hexDigit_bne45,
    Guid.runParse, Guid.parsePattern, GuidParseState.next, GuidParseState.next_dash,
    Guid.from_bytes_be]
  rw [hex_pair_eq g.b0 h0, hex_pair_eq g.b1 h1, hex_pair_eq g.b2 h2,
    hex_pair_eq g.b3 h3, hex_pair_eq g.b4 h4, hex_pair_eq g.b5 h5,
    hex_pair_eq g.b6 h6, hex_pair_eq g.b7 h7, hex_pair_eq g.b8 h8,
    hex_pair_eq g.b9 h9, hex_pair_eq g.b10 h10, hex_pair_eq g.b11 h11,
    hex_pair_eq g.b12 h12, hex_pair_eq g.b13 h13, hex_pair_eq g.b14 h14,
    hex_pair_eq g.b15 h15]
  constructor
  · exact byte_and_high_mask (lor_lt_256 (lor_lt_256 (lor_lt_256 (lor_lt_256
      (lor_lt_256 (lor_lt_256 (lor_lt_256 (lor_lt_256 (lor_lt_256 (lor_lt_256
      (lor_lt_256 (lor_lt_256 (lor_lt_256 (lor_lt_256 (lor_lt_256 h0 h1) h2)
      h3) h4) h5) h6) h7) h8) h9) h10) h11) h12) h13) h14) h15)
  · simp [Nat.mod_eq_of_lt, h0, h1, h2, h3, h4, h5, h6, h7, h8, h9, h10,
      h11, h12, h13, h14, h15]

theorem upperAscii_idem (c : Nat) : upperAscii (upperAscii c) = upperAscii c := by
  by_cases h : 97 ≤ c ∧ c ≤ 122
  · simp only [upperAscii, if_pos h]
    rw [if_neg]
    omega
  · simp only [upperAscii, if_neg h]

theorem utf16_upper_map (s : List Nat) :
    bytesOfList (fun c => [0, upperAscii c]) (s.map upperAscii) =
      bytesOfList (fun c => [0, upperAscii c]) s := by
  induction s with
  | nil => rfl
  | cons c cs ih => simp [bytesOfList, ih, upperAscii_idem]

set_option maxRecDepth 1000000 in
/-- C8: `Guid::from_name` is deterministic (it is a function) and, over
ASCII names, case-insensitive; and on the name "myprovider" it produces
exactly the fixed reference constant
`0xb3864c38_4273_58c5_545b_8b3608343471`. -/
theorem from_name_case_insensitive_and_golden :
    (∀ s : List Nat, (∀ c ∈ s, c < 128) →
      Guid.from_name s = Guid.from_name (s.map upperAscii)) ∧
    Guid.from_name [109, 121, 112, 114, 111, 118, 105, 100, 101, 114] =
      Guid.from_u128 0xb3864c38427358c5545b8b3608343471 := by
  constructor
  · intro s _
    simp only [Guid.from_name, utf16_upper_map]
  · decide

theorem from_name_case_insensitive_and_golden_witness :
    Guid.from_name [97] = Guid.from_name [65] := by
  have h := from_name_case_insensitive_and_golden.1 [97] (by decide)
  have e : ([97] : List Nat).map upperAscii = [65] := by decide
  rw [e] at h
  exact h

/-- C9: for every GUID, `from_bytes_be ∘ to_bytes_be` and
`from_bytes_le ∘ to_bytes_le` are the identity, and `try_parse` of the
36-char textual form returns the same GUID — with or without surrounding
braces and with or without the dashes. -/
theorem guid_encode_decode_roundtrip (g : Guid) (h : g.wf) :
    Guid.from_bytes_be g.to_bytes_be = some g ∧
    Guid.from_bytes_le g.to_bytes_le = some g ∧
    Guid.try_parse_ascii g.to_utf8_bytes = some g ∧
    Guid.try_parse_ascii (123 :: g.to_utf8_bytes ++ [125]) = some g ∧
    Guid.try_parse_ascii (g.to_utf8_bytes.filter (fun c => c != 45)) = some g ∧
    Guid.try_parse_ascii (123 :: g.to_utf8_bytes.filter (fun c => c != 45) ++ [125]) =
      some g :=
  ⟨rfl, rfl, try_parse_utf8_dashed g h, try_parse_utf8_braced g h,
   try_parse_utf8_nodash g h, try_parse_utf8_braced_nodash g h⟩

theorem guid_encode_decode_roundtrip_witness :
    Guid.try_parse_ascii
        (Guid.from_u128 0xa3a2a1a0b1b0c1c0d7d6d5d4d3d2d1d0).to_utf8_bytes =
      some (Guid.from_u128 0xa3a2a1a0b1b0c1c0d7d6d5d4d3d2d1d0) :=
  (guid_encode_decode_roundtrip _ (by decide)).2.2.1

/-! ## Provider / EventSet registry (`eventheader_dynamic/src/provider.rs`) -/

/-- `EventSet`: one `TracepointState` plus its (level, keyword) key and the
last registration error code. -/
structure EventSet where
  state : TracepointState
  level : Nat
  keyword : Nat
  errno : Int
deriving DecidableEq

namespace EventSet

/-- `EventSet::new(enable_status, level, keyword)`. -/
def new (enable_status level keyword : Nat) : EventSet :=
  { state := TracepointState.new enable_status,
    level := level, keyword := keyword, errno := 0 }

/-- `EventSet::enabled()`. -/
def enabled (s : EventSet) : Bool := s.state.enabled

end EventSet

/-- The (error, new write_index) pair `TracepointState::register` computes
once the UNREGISTERED→BUSY swap has succeeded: open failure or ioctl
failure yield (errno, UNREGISTERED), success yields (0, assigned index).
Theorem `register_new_eq` proves that `register` on a freshly created
tracepoint returns exactly this pair. -/
def registerStep (env : TracepointState.RegisterEnv) : Int × Nat :=
  if env.user_events_data < 0 then
    (-env.user_events_data, TracepointState.UNREGISTERED_WRITE_INDEX)
  else
    match env.ioctl_reg with
    | .error e => (e, TracepointState.UNREGISTERED_WRITE_INDEX)
    | .ok idx => (0, idx)

/-- On a freshly created tracepoint (`write_index = UNREGISTERED`) the
UNREGISTERED→BUSY swap of `register` always succeeds — no panic — and the
outcome is given by `registerStep`. -/
theorem register_new_eq (es : Nat) (env : TracepointState.RegisterEnv) :
    (TracepointState.new es).register env =
      some { error := (registerStep env).1,
             state := { enable_status := es, write_index := (registerStep env).2 },
             trace := [TracepointState.UNREGISTERED_WRITE_INDEX,
               TracepointState.BUSY_WRITE_INDEX, (registerStep env).2] } := by
  unfold TracepointState.register registerStep
  rw [if_neg (fun h => h rfl)]
  rfl

/-- Lookup in the provider's set collection (`BTreeSet::get` keyed by
(level, keyword)), returning the index of the stored set arc. -/
def lookupSet : List ((Nat × Nat) × Nat) → Nat × Nat → Option Nat
  | [], _ => none
  | (k, i) :: rest, key => if k = key then some i else lookupSet rest key

/-- `Provider`: name, options, and the collection of created event sets.
The `store` list plays the role of the heap of `Arc<EventSet>`
allocations — an index into it identifies one underlying `EventSet` — and
`sets` is the `BTreeSet` mapping each (level, keyword) key to its set. -/
structure Provider where
  name : List Nat
  options : List Nat
  store : List EventSet
  sets : List ((Nat × Nat) × Nat)
deriving DecidableEq

namespace Provider

/-- `Provider::new` (with the name/options already validated). -/
def new (name options : List Nat) : Provider :=
  { name := name, options := options, store := [], sets := [] }

/-- Outcome of `register_set`: which stored `EventSet` the returned `Arc`
refers to, the provider afterwards, and how many tracepoint registrations
the call performed. -/
structure RegisterSetOutcome where
  setIndex : Nat
  provider : Provider
  newRegistrations : Nat
deriving DecidableEq

/-- `Provider::register_set(level, keyword)`: return the existing set for
the key if present; otherwise create one, register its tracepoint
(recording the error in `errno`, never failing the call), insert it, and
return it.  The source calls `state_pin.register(name_args)` on the
freshly created set; on a fresh tracepoint that call never panics and its
outcome is `registerStep env` (theorem `register_new_eq`), so the new
set's state and errno are written directly from `registerStep`. -/
def register_set (p : Provider) (env : TracepointState.RegisterEnv)
    (level keyword : Nat) : RegisterSetOutcome :=
  match lookupSet p.sets (level, keyword) with
  | some i => ⟨i, p, 0⟩
  | none =>
    let set1 : EventSet :=
      { state := { enable_status := 0, write_index := (registerStep env).2 },
        level := level, keyword := keyword, errno := (registerStep env).1 }
    ⟨p.store.length,
     { p with store := p.store ++ [set1],
              sets := p.sets ++ [((level, keyword), p.store.length)] },
     1⟩

/-- `Provider::create_unregistered(enabled, level, keyword)`: return the
existing set for the key if present; otherwise create an unregistered set
whose `enable_status` is 1 when `enabled`, insert it, and return it. -/
def create_unregistered (p : Provider) (enabled : Bool) (level keyword : Nat) :
    Nat × Provider :=
  match lookupSet p.sets (level, keyword) with
  | some i => (i, p)
  | none =>
    let set0 := EventSet.new (if enabled then 1 else 0) level keyword
    (p.store.length,
     { p with store := p.store ++ [set0],
              sets := p.sets ++ [((level, keyword), p.store.length)] })

/-- `Provider::unregister()`: unregister every owned event set's
tracepoint and clear the set collection.  The sets themselves remain
reachable through arcs the caller may hold (the store). -/
def unregister (p : Provider) (env : TracepointState.RegisterEnv) : Provider :=
  { p with
    store := p.store.map (fun s => { s with state := (s.state.unregister env).state }),
    sets := [] }

end Provider

/-! ## Dynamic event builder (`eventheader_dynamic/src/builder.rs`) -/

namespace FieldEncoding

def Struct : Nat := 1

def Value8 : Nat := 2

def Value16 : Nat := 3

def Value32 : Nat := 4

def Value64 : Nat := 5

def Value128 : Nat := 6

def ZStringChar8 : Nat := 7

def StringLength16Char8 : Nat := 10

def StringLength16Char16 : Nat := 11

def StringLength16Char32 : Nat := 12

def CArrayFlag : Nat := 0x20

def VArrayFlag : Nat := 0x40

def FlagMask : Nat := 0xE0

end FieldEncoding

/-- `EventBuilder`: metadata buffer, data buffer, and the header scalar
fields. -/
structure EventBuilder where
  meta : List Nat
  data : List Nat
  flags : Nat
  version : Nat
  id : Nat
  tag : Nat
  opcode : Nat
deriving DecidableEq

/-- The byte serialization of a `u8` element. -/
def u8Bytes (x : Nat) : List Nat := [x % 256]

namespace EventBuilder

/-- `EventBuilder::new()` (after `new_with_capacity` resizes `meta` to one
zero byte). -/
def new : EventBuilder :=
  { meta := [0], data := [], flags := HeaderFlags.DefaultWithExtension,
    version := 0, id := 0, tag := 0, opcode := 0 }

/-- `EventBuilder::reset(name, event_tag)`. -/
def reset (_b : EventBuilder) (name : List Nat) (event_tag : Nat) : EventBuilder :=
  { meta := name ++ [0], data := [], flags := HeaderFlags.DefaultWithExtension,
    version := 0, id := 0, tag := event_tag, opcode := 0 }

/-- `EventBuilder::raw_add_meta(field_name, encoding, format, field_tag)`:
appends the NUL-terminated field name, then the encoding byte (with the
"format follows" flag 0x80 when a format or tag byte follows), then the
optional format byte (with the "tag follows" flag 0x80 when a tag
follows), then the optional 16-bit tag. -/
def raw_add_meta (b : EventBuilder) (field_name : List Nat)
    (encoding format field_tag : Nat) : EventBuilder :=
  { b with
    meta := b.meta ++ field_name ++ [0] ++
      (if field_tag ≠ 0 then
        [0x80 ||| encoding, 0x80 ||| format] ++ u16leBytes field_tag
      else if format ≠ 0 then
        [0x80 ||| encoding, format]
      else
        [encoding]) }

/-- `EventBuilder::raw_add_meta_scalar`. -/
def raw_add_meta_scalar (b : EventBuilder) (field_name : List Nat)
    (encoding format field_tag : Nat) : EventBuilder :=
  b.raw_add_meta field_name encoding format field_tag

/-- `EventBuilder::raw_add_meta_vcount`. -/
def raw_add_meta_vcount (b : EventBuilder) (field_name : List Nat)
    (encoding format field_tag : Nat) : EventBuilder :=
  b.raw_add_meta field_name (encoding ||| FieldEncoding.VArrayFlag) format field_tag

/-- `EventBuilder::raw_add_data_value(&value)`: appends the in-memory
bytes of one value. -/
def raw_add_data_value (b : EventBuilder) (valueBytes : List Nat) : EventBuilder :=
  { b with data := b.data ++ valueBytes }

/-- `EventBuilder::raw_add_data_slice(&value)`: appends the in-memory
bytes of a slice of elements, serialized by `elemBytes`. -/
def raw_add_data_slice (b : EventBuilder) (elemBytes : α → List Nat)
    (value : List α) : EventBuilder :=
  { b with data := b.data ++ bytesOfList elemBytes value }

/-- `EventBuilder::raw_add_data_counted(value)`: the slice length as an
element count followed by the (truncated) elements.  NOTE: in the
`len > 65535` branch the Rust source writes `raw_add_data_value(&65535)`,
whose untyped literal defaults to `i32`, so FOUR count bytes
(`ff ff 00 00`) are appended there; the `len <= 65535` branch writes the
count as a `u16` (two bytes). -/
def raw_add_data_counted (b : EventBuilder) (elemBytes : α → List Nat)
    (value : List α) : EventBuilder :=
  if value.length > 65535 then
    (b.raw_add_data_value (u32leBytes 65535)).raw_add_data_slice elemBytes
      (value.take 65535)
  else
    (b.raw_add_data_value (u16leBytes value.length)).raw_add_data_slice elemBytes value

/-- `EventBuilder::add_str(field_name, field_value, format, field_tag)` for
an element type with the given byte serialization and counted-string
encoding (`V::STRING_ENCODING`). -/
def add_str (b : EventBuilder) (elemBytes : α → List Nat) (string_encoding : Nat)
    (field_name : List Nat) (field_value : List α) (format field_tag : Nat) :
    EventBuilder :=
  (b.raw_add_meta_scalar field_name string_encoding format field_tag).raw_add_data_counted
    elemBytes field_value

end EventBuilder

/-- Outcome of `EventBuilder::write`: the returned `i32` and, when the
emission engine was invoked, the header and `meta_len` passed to
`TracepointState::write_eventheader` (`none` = engine not invoked). -/
structure BuilderWriteOutcome where
  ret : Int
  emission : Option (EventHeader × Nat)
deriving DecidableEq

/-- `EventBuilder::write(event_set, activity_id, related_id)`: returns
ERANGE (34) without invoking the emission engine when metadata + data
exceed `65535 - (52 + 16)` bytes; otherwise delegates to
`write_eventheader` with `meta_len = meta.len() as u16` and a header
carrying the builder's scalar fields and the event set's level. -/
def EventBuilder.write (b : EventBuilder) (event_set : EventSet) (env : WriteEnv)
    (activity_id related_id : Option (List Nat)) : BuilderWriteOutcome :=
  if b.meta.length + b.data.length > 65535 - (52 + 16) then
    { ret := 34, emission := none }
  else
    let hdr : EventHeader :=
      { flags := b.flags, version := b.version, id := b.id, tag := b.tag,
        opcode := b.opcode, level := event_set.level }
    { ret := (event_set.state.write_eventheader env hdr activity_id related_id
        (b.meta.length % 65536) [[], b.meta, b.data]).ret,
      emission := some (hdr, b.meta.length % 65536) }

/-- C3: `EventBuilder::write` returns ERANGE (34) and does not invoke the
emission engine exactly when `meta.len() + data.len()` exceeds
`65535 - 68`; otherwise it delegates to `write_eventheader` with
`meta_len = meta.len()` and a header whose level is the event set's
level. -/
theorem builder_write_size_guard (b : EventBuilder) (es : EventSet) (env : WriteEnv)
    (aid rid : Option (List Nat)) :
    ((b.write es env aid rid).ret = 34 ∧ (b.write es env aid rid).emission = none ↔
      b.meta.length + b.data.length > 65535 - 68) ∧
    (b.meta.length + b.data.length ≤ 65535 - 68 →
      (b.write es env aid rid).emission =
        some ({ flags := b.flags, version := b.version, id := b.id, tag := b.tag,
                opcode := b.opcode, level := es.level }, b.meta.length) ∧
      (b.write es env aid rid).ret =
        (es.state.write_eventheader env
          { flags := b.flags, version := b.version, id := b.id, tag := b.tag,
            opcode := b.opcode, level := es.level } aid rid b.meta.length
          [[], b.meta, b.data]).ret) := by
  by_cases hbig : b.meta.length + b.data.length > 65535 - (52 + 16)
  · constructor
    · simp only [EventBuilder.write, if_pos hbig]
      constructor
      · intro _
        omega
      · intro _
        exact ⟨by trivial, by trivial⟩
    · intro hle
      omega
  · constructor
    · simp only [EventBuilder.write, if_neg hbig]
      constructor
      · rintro ⟨-, hnone⟩
        cases hnone
      · intro hgt
        omega
    · intro hle
      have hm : b.meta.length % 65536 = b.meta.length := Nat.mod_eq_of_lt (by omega)
      simp only [EventBuilder.write, if_neg hbig, hm]
      exact ⟨by trivial, by trivial⟩

theorem builder_write_size_guard_witness :
    (EventBuilder.new.write (EventSet.new 0 5 1) ⟨3, 0, 0⟩ none none).emission =
      some ({ flags := 7, version := 0, id := 0, tag := 0, opcode := 0, level := 5 }, 1) :=
  ((builder_write_size_guard EventBuilder.new (EventSet.new 0 5 1) ⟨3, 0, 0⟩ none none).2
    (by decide)).1

theorem bytesOfList_u8_replicate (n x : Nat) (hx : x < 256) :
    bytesOfList u8Bytes (List.replicate n x) = List.replicate n x := by
  induction n with
  | zero => rfl
  | succ n ih => simp [List.replicate_succ, bytesOfList, ih, u8Bytes, Nat.mod_eq_of_lt hx]

theorem raw_add_data_counted_data (b : EventBuilder) (f : α → List Nat)
    (value : List α) :
    (b.raw_add_data_counted f value).data =
      b.data ++
        (if value.length > 65535 then
          u32leBytes 65535 ++ bytesOfList f (value.take 65535)
        else
          u16leBytes value.length ++ bytesOfList f value) := by
  by_cases h : value.length > 65535
  · simp only [EventBuilder.raw_add_data_counted, if_pos h,
      EventBuilder.raw_add_data_value, EventBuilder.raw_add_data_slice,
      List.append_assoc]
  · simp only [EventBuilder.raw_add_data_counted, if_neg h,
      EventBuilder.raw_add_data_value, EventBuilder.raw_add_data_slice,
      List.append_assoc]

/-- C4 (code evaluated at the failing input): `add_str` on a 65536-element
`u8` slice appends FOUR count bytes `ff ff 00 00` (the untyped `65535`
literal in `raw_add_data_counted`'s overflow branch is an `i32`) before
the first 65535 elements, not the 16-bit count `ff ff` that the claim and
the wire format (`StringLength16Char8`) prescribe. -/
theorem add_str_overflow_appends_4byte_count :
    (EventBuilder.new.add_str u8Bytes FieldEncoding.StringLength16Char8 []
        (List.replicate 65536 7) 0 0).data =
      [255, 255, 0, 0] ++ List.replicate 65535 7 ∧
    (EventBuilder.new.add_str u8Bytes FieldEncoding.StringLength16Char8 []
        (List.replicate 65536 7) 0 0).data ≠
      [255, 255] ++ List.replicate 65535 7 := by
  have htake : (List.replicate 65536 (7:Nat)).take 65535 = List.replicate 65535 7 := by
    rw [List.take_replicate]
    norm_num
  have hlen : (List.replicate 65536 (7:Nat)).length = 65536 :=
    List.length_replicate 65536 7
  have hdata : (EventBuilder.new.add_str u8Bytes FieldEncoding.StringLength16Char8 []
      (List.replicate 65536 7) 0 0).data = [255, 255, 0, 0] ++ List.replicate 65535 7 := by
    rw [EventBuilder.add_str, raw_add_data_counted_data, hlen, htake,
      bytesOfList_u8_replicate 65535 7 (by norm_num)]
    rw [if_pos (by norm_num : (65536:Nat) > 65535)]
    rfl
  refine ⟨hdata, ?_⟩
  have hA : ((EventBuilder.new.add_str u8Bytes FieldEncoding.StringLength16Char8 []
      (List.replicate 65536 7) 0 0).data).length = 65539 := by
    rw [hdata, List.length_append, List.length_replicate]
    rfl
  intro hbad
  have hB := congrArg List.length hbad
  rw [hA, List.length_append, List.length_replicate] at hB
  norm_num at hB

/-- C5: the metadata bytes appended after the NUL-terminated field name
are exactly one byte (the encoding) when `field_tag = 0` and the format is
Default (0); exactly two bytes (`encoding|0x80`, format) when
`field_tag = 0` and the format is non-default; and exactly four bytes
(`encoding|0x80`, `format|0x80`, tag-lo, tag-hi) when `field_tag ≠ 0` — in
particular a tag with default format still yields the 4-byte form with
format byte 0x80. -/
theorem raw_add_meta_field_layout (b : EventBuilder) (field_name : List Nat)
    (encoding format field_tag : Nat) :
    (field_tag = 0 ∧ format = 0 →
      (b.raw_add_meta field_name encoding format field_tag).meta =
        b.meta ++ field_name ++ [0] ++ [encoding]) ∧
    (field_tag = 0 ∧ format ≠ 0 →
      (b.raw_add_meta field_name encoding format field_tag).meta =
        b.meta ++ field_name ++ [0] ++ [0x80 ||| encoding, format]) ∧
    (field_tag ≠ 0 →
      (b.raw_add_meta field_name encoding format field_tag).meta =
        b.meta ++ field_name ++ [0] ++
          [0x80 ||| encoding, 0x80 ||| format, field_tag % 256,
            field_tag / 256 % 256]) := by
  refine ⟨?_, ?_, ?_⟩
  · rintro ⟨ht, hf⟩
    simp [EventBuilder.raw_add_meta, ht, hf]
  · rintro ⟨ht, hf⟩
    simp [EventBuilder.raw_add_meta, ht, hf]
  · intro ht
    simp [EventBuilder.raw_add_meta, ht, u16leBytes]

theorem raw_add_meta_field_layout_witness :
    (EventBuilder.new.raw_add_meta [70] 2 0 5).meta =
      [0] ++ [70] ++ [0] ++ [0x82, 0x80, 5, 0] := by
  have h := (raw_add_meta_field_layout EventBuilder.new [70] 2 0 5).2.2 (by decide)
  simpa using h

theorem lookupSet_append_self (xs : List ((Nat × Nat) × Nat)) (key : Nat × Nat)
    (i : Nat) (h : lookupSet xs key = none) :
    lookupSet (xs ++ [(key, i)]) key = some i := by
  induction xs with
  | nil => simp [lookupSet]
  | cons kv rest ih =>
    obtain ⟨k, j⟩ := kv
    simp only [lookupSet] at h
    by_cases hk : k = key
    · simp [hk] at h
    · simp only [List.cons_append, lookupSet, if_neg hk]
      exact ih (by simpa [hk] using h)

theorem unregister_keeps_enable_status (st : TracepointState)
    (env : TracepointState.RegisterEnv) :
    ((st.unregister env).state).enable_status = st.enable_status := by
  simp only [TracepointState.unregister]
  by_cases h : st.write_index = TracepointState.BUSY_WRITE_INDEX <;> simp [h]

/-- C7 (amended): `register_set` is idempotent — a second call with the
same (level, keyword) key returns the same underlying `EventSet` (the same
store index, hence the same enabled/errno state), leaves the provider
unchanged, and performs no new tracepoint registration; and
`Provider::unregister` clears the set collection and unregisters every
owned set's tracepoint (`write_index` becomes UNREGISTERED), but does not
modify any set's `enable_status`, so afterwards `enabled()` reports false
exactly for the sets whose status word is 0. -/
theorem register_set_idempotent_unregister_frame :
    (∀ (p : Provider) (env : TracepointState.RegisterEnv) (level keyword : Nat),
      ((p.register_set env level keyword).provider.register_set env level
          keyword).setIndex = (p.register_set env level keyword).setIndex ∧
      ((p.register_set env level keyword).provider.register_set env level
          keyword).provider = (p.register_set env level keyword).provider ∧
      ((p.register_set env level keyword).provider.register_set env level
          keyword).newRegistrations = 0) ∧
    (∀ (p : Provider) (env : TracepointState.RegisterEnv),
      (p.unregister env).sets = []) ∧
    (∀ (p : Provider) (env : TracepointState.RegisterEnv) (i : Nat),
      ((p.unregister env).store.get? i).map (fun s => s.state.enable_status) =
        (p.store.get? i).map (fun s => s.state.enable_status)) ∧
    (∀ (p : Provider) (env : TracepointState.RegisterEnv) (i : Nat)
        (s s0 : EventSet), p.store.get? i = some s0 →
      (p.unregister env).store.get? i = some s →
      (s.enabled = false ↔ s0.state.enable_status = 0)) ∧
    (∀ (p : Provider) (env : TracepointState.RegisterEnv) (i : Nat)
        (s0 : EventSet), p.store.get? i = some s0 →
      s0.state.write_index ≠ TracepointState.BUSY_WRITE_INDEX →
      (p.unregister env).store.get? i =
        some { s0 with state :=
          { s0.state with
            write_index := TracepointState.UNREGISTERED_WRITE_INDEX } }) := by
  refine ⟨?_, ?_, ?_, ?_, ?_⟩
  · intro p env level keyword
    cases hl : lookupSet p.sets (level, keyword) with
    | some i =>
      simp [Provider.register_set, hl]
    | none =>
      simp only [Provider.register_set, hl]
      simp [lookupSet_append_self _ _ _ hl]
  · intro p env
    rfl
  · intro p env i
    simp only [Provider.unregister, List.get?_map]
    cases p.store.get? i with
    | none => rfl
    | some s => simp [unregister_keeps_enable_status]
  · intro p env i s s0 h0 h1
    simp only [Provider.unregister, List.get?_map, h0, Option.map_some] at h1
    cases h1
    simp [EventSet.enabled, TracepointState.enabled, unregister_keeps_enable_status]
    exact eq_comm
  · intro p env i s0 h0 hb
    simp only [Provider.unregister, List.get?_map, h0, Option.map_some]
    simp [TracepointState.unregister, hb]

theorem register_set_idempotent_unregister_frame_witness :
    (((Provider.new [] []).register_set ⟨0, .ok 3, 0⟩ 5 1).provider.register_set
        ⟨0, .ok 3, 0⟩ 5 1).newRegistrations = 0 :=
  (register_set_idempotent_unregister_frame.1 (Provider.new [] []) ⟨0, .ok 3, 0⟩ 5 1).2.2

/-- C7 counterexample to the claim as stated: an event set obtained from
the provider via `create_unregistered(true, ..)` still reports
`enabled() = true` after `Provider::unregister()`, because `unregister`
never clears the status word. -/
theorem provider_unregister_enabled_counterexample :
    ((((Provider.new [] []).create_unregistered true 5 1).2.unregister
        ⟨0, .ok 0, 0⟩).store.get? 0).map EventSet.enabled = some true := by
  decide

/-- C10: `TracepointState::unregister` never modifies `enable_status` — a
tracepoint with a nonzero status word still reports `enabled()` after
`unregister()`; in particular an event set created through
`Provider::create_unregistered(true, ..)` still reports `enabled() = true`
after `Provider::unregister()`. -/
theorem unregister_never_clears_enable_status :
    (∀ (st : TracepointState) (env : TracepointState.RegisterEnv),
      ((st.unregister env).state).enable_status = st.enable_status) ∧
    (∀ (st : TracepointState) (env : TracepointState.RegisterEnv),
      st.enable_status ≠ 0 → ((st.unregister env).state).enabled = true) ∧
    (∀ (p : Provider) (env : TracepointState.RegisterEnv) (level keyword : Nat),
      lookupSet p.sets (level, keyword) = none →
      (((p.create_unregistered true level keyword).2.unregister env).store.get?
          (p.create_unregistered true level keyword).1).map EventSet.enabled =
        some true) := by
  refine ⟨unregister_keeps_enable_status, ?_, ?_⟩
  · intro st env h
    simp [TracepointState.enabled, unregister_keeps_enable_status]
    omega
  · intro p env level keyword hl
    simp only [Provider.create_unregistered, hl, Provider.unregister, List.get?_map]
    rw [List.get?_concat_length]
    simp [EventSet.enabled, TracepointState.enabled, EventSet.new,
      unregister_keeps_enable_status, TracepointState.new,
      TracepointState.unregister, TracepointState.BUSY_WRITE_INDEX,
      TracepointState.UNREGISTERED_WRITE_INDEX]

theorem unregister_never_clears_enable_status_witness :
    (((TracepointState.mk 1 5).unregister ⟨0, .ok 0, 0⟩).state).enabled = true :=
  unregister_never_clears_enable_status.2.1 ⟨1, 5⟩ ⟨0, .ok 0, 0⟩ (by decide)

end LinuxTracepoints
